import Mathlib

/-
Verification of the arxiv-app search pipeline (src/arxiv-app.py).

The Python program is shallowly embedded: every definition below mirrors a
function or literal of the source file.  External libraries are modelled at
their interface:
  * `xml.etree.ElementTree.fromstring` either raises (a malformed document) or
    yields an element tree; we represent its outcome as `XmlData`, and an
    entry element as a `RawEntry` record of the fields the program reads.
    An optional field is `none` exactly when the corresponding `find`/`.text`
    access would raise `AttributeError`/`TypeError` in the program.
  * `requests.get` either returns a body or raises; `fetch_arxiv_papers`
    converts the latter to `None`, represented by `fetch_result`.
  * `dateutil.parser.parse` is modelled from the spec (see `parseTimestamp`).
Python string primitives used by the program (`strip`, `lower`,
`replace("\n", " ")`, substring `in`) are embedded as structural functions on
the character list of the string (`pyStrip`, `pyLower`, `collapseNewlines`,
`containsSubstr`), which agree with Python on the inputs involved.
-/

set_option maxHeartbeats 1000000
set_option maxRecDepth 16000

/-- The six topic names of `TOPIC_CATEGORIES` (source lines 62-69). -/
inductive Topic where
  | aiSafety
  | aiGovernance
  | aiEthics
  | societalImpacts
  | longTermAI
  | technicalGovernance
deriving DecidableEq

/-- The topics in the dictionary order of `TOPIC_CATEGORIES`. -/
def allTopics : List Topic :=
  [.aiSafety, .aiGovernance, .aiEthics, .societalImpacts, .longTermAI, .technicalGovernance]

/-- A calendar date, as held by the `date_range` slider values. -/
structure Date where
  year : Nat
  month : Nat
  day : Nat
deriving DecidableEq

/-- Linear key for comparing dates chronologically. -/
def Date.key (d : Date) : Nat := d.year * 10000 + d.month * 100 + d.day

/-- Zero-pad the decimal representation of `n` to width `w` (as `strftime`
field padding does). -/
def padZero (n w : Nat) : String :=
  let s := toString n
  if s.length ≥ w then s else String.mk (List.replicate (w - s.length) '0') ++ s

/-- `d.strftime("%Y%m%d")` of source lines 189-190. -/
def fmtYYYYMMDD (d : Date) : String :=
  padZero d.year 4 ++ padZero d.month 2 ++ padZero d.day 2

/-- Python `s.strip()` restricted to the trimmed characters relevant here:
drop whitespace from both ends, structurally on the character list. -/
def pyStrip (s : String) : String :=
  String.mk (((s.data.dropWhile Char.isWhitespace).reverse.dropWhile Char.isWhitespace).reverse)

/-- Python `s.lower()` (character-wise lowering). -/
def pyLower (s : String) : String :=
  String.mk (s.data.map Char.toLower)

/-- Python `s.replace("\n", " ")`: the pattern is the single character `'\n'`,
so the replacement is character-wise. -/
def collapseNewlines (s : String) : String :=
  String.mk (s.data.map (fun c => if c = '\x0a' then ' ' else c))

/-- Whether the first list is a prefix of the second. -/
def listStartsWith : List Char → List Char → Bool
  | [], _ => true
  | _ :: _, [] => false
  | n :: ns, h :: hs => n == h && listStartsWith ns hs

/-- Substring occurrence on character lists: `needle` is a prefix of some
suffix of the second list. -/
def isSubstrList (needle : List Char) : List Char → Bool
  | [] => needle.isEmpty
  | hd :: tl => listStartsWith needle (hd :: tl) || isSubstrList needle tl

/-- Python substring test `needle in haystack`. -/
def containsSubstr (needle haystack : String) : Bool :=
  isSubstrList needle.data haystack.data

/-- The whole input of one search invocation: the widget values read by
`build_arxiv_query` and `paper_matches_topics` (sidebar state, lines 83-125). -/
structure SearchCriteria where
  search_query : String
  include_abstracts : Bool
  selected_topics : Topic → Bool
  selected_categories : List String
  date_from : Date
  date_to : Date

/-- `safety_terms` (source lines 146-147). -/
def safety_terms : List String :=
  ["safety", "alignment", "robustness", "interpretability",
   "explainability", "transparency", "reliable", "trustworthy"]

/-- `governance_terms` (source lines 151-152). -/
def governance_terms : List String :=
  ["governance", "policy", "regulation", "standard",
   "compliance", "oversight", "guideline"]

/-- `ethics_terms` (source lines 156-157). -/
def ethics_terms : List String :=
  ["ethics", "fairness", "bias", "discrimination",
   "accountability", "responsibility", "moral"]

/-- `societal_terms` (source lines 161-162). -/
def societal_terms : List String :=
  ["economic impact", "labor market", "job", "employment",
   "inequality", "social impact", "society"]

/-- `longterm_terms` (source lines 166-167). -/
def longterm_terms : List String :=
  ["existential risk", "x-risk", "long-term", "AGI",
   "artificial general intelligence", "superintelligence"]

/-- `tech_gov_terms` (source lines 171-172). -/
def tech_gov_terms : List String :=
  ["audit", "evaluation", "assessment", "red team",
   "benchmark", "testing", "monitor"]

/-- The per-topic keyword list that `build_arxiv_query` unions into
`topic_terms` when the topic is selected (source lines 145-173). -/
def query_topic_terms : Topic → List String
  | .aiSafety => safety_terms
  | .aiGovernance => governance_terms
  | .aiEthics => ethics_terms
  | .societalImpacts => societal_terms
  | .longTermAI => longterm_terms
  | .technicalGovernance => tech_gov_terms

/-- The running `topic_terms` list after the six `if selected_topics[...]`
blocks of `build_arxiv_query` (source lines 143-173), in source order. -/
def topicTerms (sel : Topic → Bool) : List String :=
  (if sel .aiSafety then safety_terms else []) ++
  (if sel .aiGovernance then governance_terms else []) ++
  (if sel .aiEthics then ethics_terms else []) ++
  (if sel .societalImpacts then societal_terms else []) ++
  (if sel .longTermAI then longterm_terms else []) ++
  (if sel .technicalGovernance then tech_gov_terms else [])

/-- `f'"{term}"'` of source line 177. -/
def quoteTerm (t : String) : String := "\x22" ++ t ++ "\x22"

/-- The free-text clause appended at source lines 133-140 (`[]` when the
`search_query` string is falsy, i.e. empty). -/
def free_text_clause (c : SearchCriteria) : List String :=
  if c.search_query = "" then []
  else
    let cleaned := pyStrip c.search_query
    if c.include_abstracts then ["(ti:" ++ cleaned ++ " OR abs:" ++ cleaned ++ ")"]
    else ["ti:" ++ cleaned]

/-- The topic-keyword clause appended at source lines 176-181. -/
def topic_clause (c : SearchCriteria) : List String :=
  let terms := topicTerms c.selected_topics
  if terms = [] then []
  else
    let topic_query := String.intercalate " OR " (terms.map quoteTerm)
    if c.include_abstracts then
      ["(ti:(" ++ topic_query ++ ") OR abs:(" ++ topic_query ++ "))"]
    else ["ti:(" ++ topic_query ++ ")"]

/-- The category clause appended at source lines 184-186. -/
def category_clause (c : SearchCriteria) : List String :=
  if c.selected_categories = [] then []
  else
    ["(" ++ String.intercalate " OR "
        (c.selected_categories.map (fun cat => "cat:" ++ cat)) ++ ")"]

/-- The date-range clause appended at source lines 188-191. -/
def date_clause (c : SearchCriteria) : String :=
  "submittedDate:[" ++ fmtYYYYMMDD c.date_from ++ "0000 TO " ++
    fmtYYYYMMDD c.date_to ++ "2359]"

/-- The final `query_parts` list of `build_arxiv_query`, in append order. -/
def query_parts (c : SearchCriteria) : List String :=
  free_text_clause c ++ topic_clause c ++ category_clause c ++ [date_clause c]

/-- `build_arxiv_query` (source lines 128-196): each part is parenthesized and
the parts are joined with `" AND "` (line 194). -/
def build_arxiv_query (c : SearchCriteria) : String :=
  String.intercalate " AND " ((query_parts c).map (fun part => "(" ++ part ++ ")"))

/-- `sort_mapping.get(sort_by, "submittedDate")` of source lines 203-207, 215. -/
def sort_mapping (sort_by : String) : String :=
  if sort_by = "Relevance" then "relevance"
  else if sort_by = "Date (Newest First)" then "submittedDate"
  else if sort_by = "Date (Oldest First)" then "submittedDate"
  else "submittedDate"

/-- `sort_order` of source line 208. -/
def sort_order (sort_by : String) : String :=
  if sort_by = "Date (Oldest First)" then "ascending" else "descending"

/-- One `paper` dictionary as built at source lines 295-303.  `link` and `doi`
are optional because `link_tag.get("href")` can yield `None`, which the
program stores as-is. -/
structure Paper where
  title : String
  authors : String
  abstract : String
  pub_date : String
  link : Option String
  categories : String
  doi : Option String
deriving DecidableEq

/-- One `<link>` element of an entry: its `title` and `href` attributes
(`None` when the attribute is absent, as `Element.get` returns). -/
structure RawLink where
  titleAttr : Option String
  href : Option String
deriving DecidableEq

/-- One `<entry>` element, reduced to the fields `parse_arxiv_response`
reads.  `title`, `summary`, `published` are `none` when the element is
missing or its text is `None` (either way the entry access raises and the
entry is skipped).  `idText` is two-level: `none` when the `<id>` element is
missing (access raises), `some t` when it is present with text `t` (which
itself can be `None`). -/
structure RawEntry where
  title : Option String
  authorNames : List (Option String)
  summary : Option String
  published : Option String
  links : List RawLink
  idText : Option (Option String)
  categoryTerms : List (Option String)
deriving DecidableEq

/-- Modelled from the spec: `dateutil.parser.parse(published).strftime("%Y-%m-%d")`
(source line 264) is an external-library call; per the spec the publication
timestamp is "parsed ... into a calendar date (time-of-day discarded)".  We
accept a timestamp whose first ten characters have the shape `YYYY-MM-DD`
and return that date part; anything else fails (the raised exception). -/
def validDateChars : List Char → Bool
  | y1 :: y2 :: y3 :: y4 :: h1 :: m1 :: m2 :: h2 :: d1 :: d2 :: _ =>
    y1.isDigit && y2.isDigit && y3.isDigit && y4.isDigit && h1 == '-' &&
      m1.isDigit && m2.isDigit && h2 == '-' && d1.isDigit && d2.isDigit
  | _ => false

/-- Modelled from the spec: see `validDateChars`. -/
def parseTimestamp (s : String) : Option String :=
  if validDateChars s.data then some (String.mk (s.data.take 10)) else none

/-- The author loop of source lines 251-254: keep each `author.text` that is
truthy (present and non-empty), stripped. -/
def keptAuthors (names : List (Option String)) : List String :=
  names.filterMap fun o =>
    match o with
    | some s => if s = "" then none else some (pyStrip s)
    | none => none

/-- The category loop of source lines 278-282: keep each truthy `term`
attribute. -/
def keptCategories (terms : List (Option String)) : List String :=
  terms.filterMap fun o =>
    match o with
    | some s => if s = "" then none else some s
    | none => none

/-- The link selection of source lines 266-275: the `href` of the first link
titled `"pdf"`; when that is falsy (`None` or absent loop match leaving `""`),
fall back to the `<id>` text.  Outer `none` means the fallback access raised
(no `<id>` element) and the entry is skipped; the inner option is the value
stored in the paper dictionary. -/
def entry_link (e : RawEntry) : Option (Option String) :=
  let pdf : Option String :=
    match e.links.find? (fun l => l.titleAttr == some "pdf") with
    | some l => l.href
    | none => some ""
  match pdf with
  | some h => if h = "" then e.idText else some (some h)
  | none => e.idText

/-- The DOI selection of source lines 288-292: the `href` of the first link
titled `"doi"`, else the initial `""`.  `none` models a `doi` link whose
`href` attribute is absent (Python stores `None`). -/
def entry_doi (e : RawEntry) : Option String :=
  match e.links.find? (fun l => l.titleAttr == some "doi") with
  | some l => l.href
  | none => some ""

/-- `.strip().replace("\n", " ")` applied to titles and abstracts
(source lines 248 and 260). -/
def normSpace (s : String) : String := collapseNewlines (pyStrip s)

/-- The body of the per-entry `try` block (source lines 247-305): `none`
exactly when one of the accesses raises and the entry is skipped by the
`except` at lines 306-308. -/
def parse_entry (e : RawEntry) : Option Paper := do
  let t ← e.title
  let a ← e.summary
  let pub ← e.published
  let pub_date ← parseTimestamp pub
  let link ← entry_link e
  some
    { title := normSpace t,
      authors := String.intercalate ", " (keptAuthors e.authorNames),
      abstract := normSpace a,
      pub_date := pub_date,
      link := link,
      categories := String.intercalate ", " (keptCategories e.categoryTerms),
      doi := entry_doi e }

/-- Outcome of `ET.fromstring` on the raw feed text: either it raises (a
document that is not well-formed XML) or yields a tree whose entry elements
are listed in document order. -/
inductive XmlData where
  | malformed (msg : String)
  | wellFormed (entries : List RawEntry)

/-- What `parse_arxiv_response` leaves behind: its return value, the number
of `st.warning` calls (one per skipped entry, line 307), and the `st.error`
message if any (line 312). -/
structure ParseOutcome where
  papers : List Paper
  warningCount : Nat
  errorMsg : Option String
deriving DecidableEq

/-- `parse_arxiv_response` (source lines 231-313).  `none` input is the
`xml_data is None` guard at lines 232-233; a malformed document is the outer
`except` at lines 311-313; otherwise each entry is parsed, failures skipped
with a warning. -/
def parse_arxiv_response : Option XmlData → ParseOutcome
  | none => { papers := [], warningCount := 0, errorMsg := none }
  | some (.malformed msg) =>
    { papers := [], warningCount := 0,
      errorMsg := some ("Error parsing ArXiv response: " ++ msg) }
  | some (.wellFormed entries) =>
    { papers := entries.filterMap parse_entry,
      warningCount := entries.countP (fun e => (parse_entry e).isNone),
      errorMsg := none }

/-- Outcome of the one `requests.get` call in `fetch_arxiv_papers`: success
carries the response body (here already classified as `XmlData`), failure is
a raised `RequestException`. -/
inductive TransportOutcome where
  | success (doc : XmlData)
  | failure (msg : String)

/-- The `try`/`except` of `fetch_arxiv_papers` (source lines 222-228):
the response text on success, `None` after a transport failure. -/
def fetch_result : TransportOutcome → Option XmlData
  | .success doc => some doc
  | .failure _ => none

/-- `topic_keywords` of `paper_matches_topics` (source lines 322-340). -/
def topic_keywords : Topic → List String
  | .aiSafety =>
    ["safety", "alignment", "robustness", "interpretability",
     "explainability", "transparent", "reliable", "trustworthy"]
  | .aiGovernance =>
    ["governance", "policy", "regulation", "standard",
     "compliance", "oversight", "guideline"]
  | .aiEthics =>
    ["ethics", "fairness", "bias", "discrimination",
     "accountability", "responsibility", "moral"]
  | .societalImpacts =>
    ["economic", "labor", "job", "employment",
     "inequality", "social impact", "society"]
  | .longTermAI =>
    ["existential", "x-risk", "long-term", "AGI",
     "general intelligence", "superintelligence"]
  | .technicalGovernance =>
    ["audit", "evaluation", "assessment", "red team",
     "benchmark", "testing", "monitor"]

/-- `paper_matches_topics` (source lines 316-352): pass-through when no topic
is selected, else a keyword of a selected topic must occur (lowered) in the
lowered `title + " " + abstract`. -/
def paper_matches_topics (paper : Paper) (sel : Topic → Bool) : Bool :=
  if !(allTopics.any sel) then true
  else
    let text_to_check := pyLower (paper.title ++ " " ++ paper.abstract)
    allTopics.any fun t =>
      sel t && (topic_keywords t).any fun kw =>
        containsSubstr (pyLower kw) text_to_check

/-- The list comprehension of source line 388, element by element. -/
def matched_papers (all_papers : List Paper) (sel : Topic → Bool) : List Paper :=
  match all_papers with
  | [] => []
  | p :: rest =>
    if paper_matches_topics p sel then p :: matched_papers rest sel
    else matched_papers rest sel

/-- A clause is a date-range clause when it starts with the literal
`submittedDate:[`. -/
def isDateClause (s : String) : Bool :=
  listStartsWith "submittedDate:[".data s.data

/-- A selection with no topic ticked (`any(selected_topics.values())` is
`False`). -/
def no_topics : Topic → Bool := fun _ => false

/-- A selection with exactly `AI Safety` ticked. -/
def aiSafetyOnly : Topic → Bool := fun t => t == Topic.aiSafety

/-- A selection with exactly `Societal Impacts` ticked. -/
def societalOnly : Topic → Bool := fun t => t == Topic.societalImpacts

/-- The criteria of the end-to-end example: empty free text, only
`AI Safety` selected, single category `cs.AI`, January 2024. -/
def c2_criteria : SearchCriteria :=
  { search_query := "",
    include_abstracts := true,
    selected_topics := aiSafetyOnly,
    selected_categories := ["cs.AI"],
    date_from := { year := 2024, month := 1, day := 1 },
    date_to := { year := 2024, month := 1, day := 31 } }

/-- The quoted OR-join of the AI-Safety keywords, the `topic_query` string
the program computes for `c2_criteria`. -/
def c2_topic_query : String :=
  String.intercalate " OR " (safety_terms.map quoteTerm)

/-- The query the claim says `build` yields for `c2_criteria`: each clause
parenthesized exactly once. -/
def c2_claimed : String :=
  "(ti:(" ++ c2_topic_query ++ ") OR abs:(" ++ c2_topic_query ++
    ")) AND (cat:cs.AI) AND (submittedDate:[202401010000 TO 202401312359])"

/-- The query the program actually yields for `c2_criteria`: the join wraps
every part in parentheses and the topic and category parts already carry
their own, so those two appear doubly parenthesized. -/
def c2_actual : String :=
  "((ti:(" ++ c2_topic_query ++ ") OR abs:(" ++ c2_topic_query ++
    "))) AND ((cat:cs.AI)) AND (submittedDate:[202401010000 TO 202401312359])"

/-- Criteria with empty free text, no topic, no category: only the date
clause remains. -/
def c3_empty_criteria : SearchCriteria :=
  { search_query := "",
    include_abstracts := true,
    selected_topics := no_topics,
    selected_categories := [],
    date_from := { year := 2024, month := 1, day := 1 },
    date_to := { year := 2024, month := 1, day := 31 } }

/-- A well-formed feed entry: every mandatory field present. -/
def goodEntry : RawEntry :=
  { title := some "Scalable  Oversight\x0aMethods",
    authorNames := [some "A. Researcher", none, some ""],
    summary := some " We study alignment methods. ",
    published := some "2024-01-15T10:00:00Z",
    links := [{ titleAttr := some "pdf", href := some "http://arxiv.org/pdf/2401.00001" }],
    idText := some (some "http://arxiv.org/abs/2401.00001"),
    categoryTerms := [some "cs.AI", some "cs.LG"] }

/-- The same entry with its mandatory `<title>` missing. -/
def badEntry : RawEntry := { goodEntry with title := none }

/-- The record `parse_arxiv_response` builds from `goodEntry`. -/
def goodPaper : Paper :=
  { title := "Scalable  Oversight Methods",
    authors := "A. Researcher",
    abstract := "We study alignment methods.",
    pub_date := "2024-01-15",
    link := some "http://arxiv.org/pdf/2401.00001",
    categories := "cs.AI, cs.LG",
    doi := some "" }

/-- A paper whose abstract contains the AI-Safety keyword `alignment`. -/
def alignment_paper : Paper :=
  { title := "A Survey",
    authors := "B. Author",
    abstract := "A look at alignment research.",
    pub_date := "2024-02-01",
    link := some "http://arxiv.org/abs/2402.00001",
    categories := "cs.AI",
    doi := some "" }

/-- Title ends with `social`, abstract starts with `impact`: the keyword
`social impact` spans the space the program inserts between them. -/
def c6_paper : Paper :=
  { title := "Automation and social",
    authors := "",
    abstract := "impact of machine learning",
    pub_date := "2024-01-01",
    link := some "",
    categories := "",
    doi := some "" }

/-- The matching predicate exactly as the claim words it: some keyword of
some selected topic occurs, case-insensitively, in the concatenation of the
title and the abstract (no separator).  Stated from the claim text, to be
compared against `paper_matches_topics`. -/
def matches_concat_claim (paper : Paper) (sel : Topic → Bool) : Prop :=
  ∃ t ∈ allTopics, sel t = true ∧
    ∃ kw ∈ topic_keywords t,
      containsSubstr (pyLower kw) (pyLower (paper.title ++ paper.abstract)) = true

instance (paper : Paper) (sel : Topic → Bool) : Decidable (matches_concat_claim paper sel) := by
  unfold matches_concat_claim
  exact inferInstance

/-- The date clause always starts with the date-clause marker. -/
theorem isDateClause_date_clause (c : SearchCriteria) :
    isDateClause (date_clause c) = true := rfl

/-- A title-or-abstract free-text clause is not a date clause. -/
theorem isDateClause_free_abs (a b : String) :
    isDateClause ("(ti:" ++ a ++ " OR abs:" ++ b ++ ")") = false := rfl

/-- A title-only free-text clause is not a date clause. -/
theorem isDateClause_free_ti (a : String) :
    isDateClause ("ti:" ++ a) = false := rfl

/-- A title-or-abstract topic clause is not a date clause. -/
theorem isDateClause_topic_abs (a b : String) :
    isDateClause ("(ti:(" ++ a ++ ") OR abs:(" ++ b ++ "))") = false := rfl

/-- A title-only topic clause is not a date clause. -/
theorem isDateClause_topic_ti (a : String) :
    isDateClause ("ti:(" ++ a ++ ")") = false := rfl

/-- A category clause is not a date clause. -/
theorem isDateClause_cat (a : String) :
    isDateClause ("(" ++ a ++ ")") = false := rfl

/-- No free-text clause is a date clause. -/
theorem countP_free_text (c : SearchCriteria) :
    (free_text_clause c).countP isDateClause = 0 := by
  unfold free_text_clause
  by_cases hq : c.search_query = ""
  · simp [hq]
  · cases hab : c.include_abstracts <;>
      simp [hq, hab, List.countP_cons, isDateClause_free_abs, isDateClause_free_ti]

/-- No topic clause is a date clause. -/
theorem countP_topic (c : SearchCriteria) :
    (topic_clause c).countP isDateClause = 0 := by
  unfold topic_clause
  by_cases ht : topicTerms c.selected_topics = []
  · simp [ht]
  · cases hab : c.include_abstracts <;>
      simp [ht, hab, List.countP_cons, isDateClause_topic_abs, isDateClause_topic_ti]

/-- No category clause is a date clause. -/
theorem countP_category (c : SearchCriteria) :
    (category_clause c).countP isDateClause = 0 := by
  unfold category_clause
  by_cases hc : c.selected_categories = []
  · simp [hc]
  · simp [hc, List.countP_cons, isDateClause_cat]

/-- C1: the claim says the topic vocabulary used by `build_arxiv_query` and
the one used by `paper_matches_topics` are the same set of strings for every
topic.  Counterexample: for `AI Safety` the query side contains
`transparency` while the filter side does not (it has `transparent`). -/
theorem C1_counterexample :
    "transparency" ∈ query_topic_terms Topic.aiSafety ∧
    "transparency" ∉ topic_keywords Topic.aiSafety := by decide

/-- C1 (amended): the two vocabularies coincide exactly for `AI Governance`,
`AI Ethics` and `Technical Governance`; for `AI Safety`, `Societal Impacts`
and `Long-term AI` each side holds a keyword the other lacks
(`transparency`/`transparent`, `economic impact`/`economic`,
`existential risk`/`existential`). -/
theorem C1_vocab_amended :
    (query_topic_terms Topic.aiGovernance = topic_keywords Topic.aiGovernance ∧
     query_topic_terms Topic.aiEthics = topic_keywords Topic.aiEthics ∧
     query_topic_terms Topic.technicalGovernance = topic_keywords Topic.technicalGovernance) ∧
    ("transparency" ∈ query_topic_terms Topic.aiSafety ∧
     "transparency" ∉ topic_keywords Topic.aiSafety ∧
     "transparent" ∈ topic_keywords Topic.aiSafety ∧
     "transparent" ∉ query_topic_terms Topic.aiSafety) ∧
    ("economic impact" ∈ query_topic_terms Topic.societalImpacts ∧
     "economic impact" ∉ topic_keywords Topic.societalImpacts ∧
     "economic" ∈ topic_keywords Topic.societalImpacts ∧
     "economic" ∉ query_topic_terms Topic.societalImpacts) ∧
    ("existential risk" ∈ query_topic_terms Topic.longTermAI ∧
     "existential risk" ∉ topic_keywords Topic.longTermAI ∧
     "existential" ∈ topic_keywords Topic.longTermAI ∧
     "existential" ∉ query_topic_terms Topic.longTermAI) := by decide

/-- C2: the claim says `build` on the January-2024 AI-Safety/cs.AI criteria
yields each clause parenthesized exactly once.  Counterexample: the built
query is not that string (the topic and category clauses are doubly
parenthesized, because the join adds parentheses around parts that already
carry their own). -/
theorem C2_counterexample : build_arxiv_query c2_criteria ≠ c2_claimed := by decide

/-- C2 (amended): for the same criteria the free-text clause is omitted and
the clauses are joined with AND in the claimed order, but the topic and
category clauses appear doubly parenthesized:
`((ti:(...) OR abs:(...))) AND ((cat:cs.AI)) AND (submittedDate:[202401010000 TO 202401312359])`. -/
theorem C2_query_exact : build_arxiv_query c2_criteria = c2_actual := by rfl

/-- C3: for every criteria with `dateFrom <= dateTo` the built query has
exactly one date-range clause, of the form
`submittedDate:[<dateFrom as YYYYMMDD>0000 TO <dateTo as YYYYMMDD>2359]`,
and it is present whatever the other fields are (in particular when free
text, topics and categories are all empty, as the universally quantified
criteria include `c3_empty_criteria`). -/
theorem C3_one_date_clause (c : SearchCriteria) (h : c.date_from.key ≤ c.date_to.key) :
    (query_parts c).countP isDateClause = 1 ∧
    date_clause c ∈ query_parts c ∧
    date_clause c = "submittedDate:[" ++ fmtYYYYMMDD c.date_from ++ "0000 TO " ++
      fmtYYYYMMDD c.date_to ++ "2359]" := by
  refine ⟨?_, ?_, rfl⟩
  · unfold query_parts
    rw [List.countP_append, List.countP_append, List.countP_append,
      countP_free_text, countP_topic, countP_category]
    simp [List.countP_cons, isDateClause_date_clause]
  · simp [query_parts]

/-- Witness for C3 at the all-empty criteria. -/
theorem C3_witness :
    (query_parts c3_empty_criteria).countP isDateClause = 1 ∧
    date_clause c3_empty_criteria ∈ query_parts c3_empty_criteria ∧
    date_clause c3_empty_criteria =
      "submittedDate:[" ++ fmtYYYYMMDD c3_empty_criteria.date_from ++ "0000 TO " ++
        fmtYYYYMMDD c3_empty_criteria.date_to ++ "2359]" :=
  C3_one_date_clause c3_empty_criteria (by decide)

/-- C4: a feed with one well-formed entry and one entry whose mandatory field
extraction fails yields exactly the record of the well-formed entry; the
malformed entry is skipped with one warning, no error escapes, and parsing
reaches the entries after the failing one (here the failing entry comes
first). -/
theorem C4_entry_skip (e₁ e₂ : RawEntry) (p : Paper)
    (h₁ : parse_entry e₁ = some p) (h₂ : parse_entry e₂ = none) :
    parse_arxiv_response (some (.wellFormed [e₁, e₂])) =
      { papers := [p], warningCount := 1, errorMsg := none } ∧
    parse_arxiv_response (some (.wellFormed [e₂, e₁])) =
      { papers := [p], warningCount := 1, errorMsg := none } := by
  constructor <;>
    simp [parse_arxiv_response, List.filterMap_cons, h₁, h₂, List.countP_cons]

/-- Witness for C4: a concrete good entry and one missing its title. -/
theorem C4_witness :
    parse_arxiv_response (some (.wellFormed [goodEntry, badEntry])) =
      { papers := [goodPaper], warningCount := 1, errorMsg := none } ∧
    parse_arxiv_response (some (.wellFormed [badEntry, goodEntry])) =
      { papers := [goodPaper], warningCount := 1, errorMsg := none } :=
  C4_entry_skip goodEntry badEntry goodPaper (by rfl) (by rfl)

/-- C5: on a top-level malformed document `parse` returns the empty sequence
and surfaces the failure as an error message instead of raising. -/
theorem C5_malformed_document (msg : String) :
    parse_arxiv_response (some (.malformed msg)) =
      { papers := [], warningCount := 0,
        errorMsg := some ("Error parsing ArXiv response: " ++ msg) } := rfl

/-- C7: with no topic selected the relevance filter is a pass-through:
every paper matches. -/
theorem C7_empty_selection_passthrough (paper : Paper) :
    paper_matches_topics paper no_topics = true := rfl

/-- C8: the sort mode maps to the two service parameters as claimed:
`Relevance` requests key `relevance` descending, `Date (Newest First)` key
`submittedDate` descending, `Date (Oldest First)` key `submittedDate`
ascending. -/
theorem C8_sort_parameters :
    (sort_mapping "Relevance" = "relevance" ∧
      sort_order "Relevance" = "descending") ∧
    (sort_mapping "Date (Newest First)" = "submittedDate" ∧
      sort_order "Date (Newest First)" = "descending") ∧
    (sort_mapping "Date (Oldest First)" = "submittedDate" ∧
      sort_order "Date (Oldest First)" = "ascending") := by decide

/-- C10: `parse` on the `None` sentinel that `fetch` returns after a
transport failure yields the empty sequence with no warning and no error,
and the downstream relevance filtering of that result is empty as well. -/
theorem C10_transport_failure_degrades :
    (∀ msg, parse_arxiv_response (fetch_result (.failure msg)) =
      { papers := [], warningCount := 0, errorMsg := none }) ∧
    (∀ msg sel, matched_papers (parse_arxiv_response (fetch_result (.failure msg))).papers sel = []) :=
  ⟨fun _ => rfl, fun _ _ => rfl⟩

/-- C6: the claim characterizes a match as a keyword occurring in the
concatenation of title and abstract.  Counterexample: the program inserts a
space between title and abstract, and for `c6_paper` the keyword
`social impact` spans exactly that inserted space, so the program matches
while the claimed characterization does not. -/
theorem C6_counterexample :
    paper_matches_topics c6_paper societalOnly = true ∧
    ¬ matches_concat_claim c6_paper societalOnly := by decide

/-- C6 (amended): for every paper and non-empty selection, the paper matches
iff some keyword of some selected topic occurs case-insensitively in the
concatenation of the title, a single space, and the abstract. -/
theorem C6_matches_iff (p : Paper) (sel : Topic → Bool) (h : allTopics.any sel = true) :
    paper_matches_topics p sel = true ↔
      ∃ t ∈ allTopics, sel t = true ∧
        ∃ kw ∈ topic_keywords t,
          containsSubstr (pyLower kw) (pyLower (p.title ++ " " ++ p.abstract)) = true := by
  simp [paper_matches_topics, h, List.any_eq_true, Bool.and_eq_true]

/-- Witness for C6: a paper whose abstract contains `alignment` matches the
`AI Safety`-only selection. -/
theorem C6_witness :
    paper_matches_topics alignment_paper aiSafetyOnly = true :=
  (C6_matches_iff alignment_paper aiSafetyOnly (by decide)).mpr
    ⟨Topic.aiSafety, by decide, by decide, "alignment", by decide, by decide⟩

/-- C9: the pipeline keeps exactly the records the relevance filter accepts,
in original feed order: the result is the filter of the input list, it is a
sublist of the input (no reordering), and every accepted record keeps its
exact multiplicity while every rejected record disappears (no duplication,
no truncation). -/
theorem C9_filter_order (papers : List Paper) (sel : Topic → Bool) :
    matched_papers papers sel = papers.filter (fun p => paper_matches_topics p sel) ∧
    List.Sublist (matched_papers papers sel) papers ∧
    ∀ p : Paper, (matched_papers papers sel).count p =
      if paper_matches_topics p sel then papers.count p else 0 := by
  have hfil : matched_papers papers sel = papers.filter (fun p => paper_matches_topics p sel) := by
    induction papers with
    | nil => rfl
    | cons a t ih =>
      by_cases hm : paper_matches_topics a sel <;>
        simp [matched_papers, List.filter_cons, hm, ih]
  refine ⟨hfil, ?_, ?_⟩
  · rw [hfil]
    exact List.filter_sublist papers
  · intro p
    rw [hfil]
    by_cases hp : paper_matches_topics p sel = true
    · rw [if_pos hp]
      exact List.count_filter hp
    · rw [if_neg hp]
      rw [List.count_eq_zero]
      intro hmem
      exact hp ((List.mem_filter.mp hmem).2)

/-- Witness for C9 at a concrete one-element feed. -/
theorem C9_witness :
    (matched_papers [alignment_paper] aiSafetyOnly).count alignment_paper =
      if paper_matches_topics alignment_paper aiSafetyOnly
      then ([alignment_paper] : List Paper).count alignment_paper else 0 :=
  (C9_filter_order [alignment_paper] aiSafetyOnly).2.2 alignment_paper
